import Mathlib

/-!
Verification of the tcm-cli plan-execution core: a shallow embedding of
`src/tcm/agent/executor.py` (plan execution, retry, parameter-reference
resolution), `src/tcm/agent/session.py` (tool-health tracking), and
`src/tcm/models/llm.py` (LLM retry policy, model catalog, usage tracker),
with theorems checking the specification's claims about them.

Python strings are modelled as Lean `String`; the handful of Python string
operations the code uses (`str.replace`, `str.split`, `str.lower`,
`str.startswith`, the `in` operator, slicing, `int()` parsing) are
re-implemented below on `List Char` by structural recursion so that all
definitions evaluate inside the kernel. Python `dict`s are modelled as
association lists with first-match lookup, in-place update and append
semantics matching CPython insertion order. `time.time()` is modelled by an
explicit integer clock threaded through the executor; `time.sleep(n)`
advances it by `n`. A tool's (possibly stateful) `run` is modelled as a
function of the attempt index, so the same tool can fail on one invocation
and succeed on the next.
-/

/-- Drops `pat` from the front of a character list, returning the remainder,
or `none` when `pat` is not a prefix. -/
def dropPrefixQ : List Char → List Char → Option (List Char)
  | [], s => some s
  | _ :: _, [] => none
  | p :: ps, c :: cs => if p = c then dropPrefixQ ps cs else none

/-- Python's `sub in s` substring test. -/
def containsSub (pat : List Char) : List Char → Bool
  | [] => pat.isEmpty
  | c :: rest => (dropPrefixQ pat (c :: rest)).isSome || containsSub pat rest

/-- Worker for `pyReplace`: replaces non-overlapping occurrences of `pat`
left to right, as Python's `str.replace`. The fuel argument (instantiated
with the string length) only serves to make the recursion structural; it is
never exhausted for the non-empty patterns the code uses. -/
def replaceListAux (pat rep : List Char) : Nat → List Char → List Char
  | 0, s => s
  | fuel + 1, s =>
    match s with
    | [] => []
    | c :: rest =>
      match dropPrefixQ pat s with
      | some rem => rep ++ replaceListAux pat rep fuel rem
      | none => c :: replaceListAux pat rep fuel rest

/-- Python `s.replace(pat, rep)`. -/
def pyReplace (s pat rep : String) : String :=
  ⟨replaceListAux pat.data rep.data s.data.length s.data⟩

/-- Worker for `pySplit`: Python `str.split` with a one-character separator
(the source only splits on a single dot). -/
def splitOnChar (sep : Char) : List Char → List (List Char)
  | [] => [[]]
  | c :: rest =>
    let r := splitOnChar sep rest
    if c = sep then [] :: r
    else
      match r with
      | [] => [[c]]
      | h :: t => (c :: h) :: t

/-- Python `s.split(sep)` for a one-character separator. -/
def pySplit (s : String) (sep : Char) : List String :=
  (splitOnChar sep s.data).map (fun l => ⟨l⟩)

/-- Python `s.lower()`. -/
def pyLower (s : String) : String := ⟨s.data.map Char.toLower⟩

/-- Python `sub in s`. -/
def pyContains (sub s : String) : Bool := containsSub sub.data s.data

/-- Python `s.startswith(pre)`. -/
def pyStartsWith (s pre : String) : Bool := pre.data.isPrefixOf s.data

/-- Python `s[1:]`. -/
def pyDrop1 (s : String) : String := ⟨s.data.drop 1⟩

/-- Digit-string accumulator for `pyInt`. -/
def digitsToNatAux : List Char → Nat → Option Nat
  | [], acc => some acc
  | c :: rest, acc =>
    if c.isDigit then digitsToNatAux rest (acc * 10 + (c.toNat - 48)) else none

/-- Parses a non-empty all-digit character list as a natural number. -/
def digitsToNat? : List Char → Option Nat
  | [] => none
  | cs => digitsToNatAux cs 0

/-- Python `int(s)` on the forms arising here: an optional sign followed by
decimal digits; anything else raises `ValueError`, modelled as `none`. -/
def pyInt (s : String) : Option Int :=
  match s.data with
  | '-' :: rest => (digitsToNat? rest).map (fun n => -(n : Int))
  | '+' :: rest => (digitsToNat? rest).map (fun n => (n : Int))
  | cs => (digitsToNat? cs).map (fun n => (n : Int))

/-- JSON-like values flowing through plans, parameters and step results. -/
inductive Value where
  | vNull : Value
  | vBool : Bool → Value
  | vInt : Int → Value
  | vStr : String → Value
  | vList : List Value → Value
  | vDict : List (String × Value) → Value

/-- A Python `dict` with string keys, as an insertion-ordered association
list with unique keys. -/
abbrev Dict := List (String × Value)

/-- Python `d.get(k)` / `d[k]`: first-match association-list lookup. -/
def alistGet {α : Type} : List (String × α) → String → Option α
  | [], _ => none
  | (k', v) :: rest, k => if k' = k then some v else alistGet rest k

/-- Python `d[k] = v`: update in place when the key exists, append otherwise. -/
def alistSet {α : Type} : List (String × α) → String → α → List (String × α)
  | [], k, v => [(k, v)]
  | (k', v') :: rest, k, v =>
    if k' = k then (k, v) :: rest else (k', v') :: alistSet rest k v

/-- Python `d.pop(k, None)`: removes the entry for `k` if present. -/
def alistPop {α : Type} (l : List (String × α)) (k : String) : List (String × α) :=
  l.filter (fun p => !(p.1 == k))

/-! ## Session tool-health tracking (`src/tcm/agent/session.py`) -/

/-- The slice of `Session` state relevant to tool health: the configuration
values the methods read (with their `config.get` defaults) and the two
runtime maps `_tool_health_failures` and `_tool_health_suppressed_until`.
Timestamps are an integer clock standing for `time.time()`. -/
structure SessionState where
  toolHealthEnabled : Bool := true
  executorMaxRetries : Int := 2
  failureWindowS : Int := 1800
  failThreshold : Int := 2
  suppressSeconds : Int := 900
  failures : List (String × List Int) := []
  suppressedUntil : List (String × Int) := []

/-- `Session._is_transient_tool_error`: substring match of the lowered error
text against the fixed transient-marker tuple. -/
def isTransientToolError (errorText : String) : Bool :=
  let text := pyLower errorText
  ["timeout", "timed out", "connection", "dns",
   "service unavailable", "rate limit", "429",
   "500", "502", "503", "504"].any (fun marker => pyContains marker text)

/-- `Session.record_tool_success`: clears failure history and suppression for
the tool; guarded only by an empty tool name (it does not consult
`_tool_health_enabled`). -/
def record_tool_success (s : SessionState) (toolName : String) : SessionState :=
  if toolName = "" then s
  else
    { s with
      failures := alistPop s.failures toolName
      suppressedUntil := alistPop s.suppressedUntil toolName }

/-- `Session.record_tool_failure` at clock time `now`: no-op when tool health
is disabled, the name is empty, or the error is not transient; otherwise
prunes the failure window, appends `now`, and suppresses the tool until
`now + suppress_s` once the in-window count reaches the threshold. -/
def record_tool_failure (s : SessionState) (toolName errorText : String)
    (now : Int) : SessionState :=
  if s.toolHealthEnabled = false ∨ toolName = "" then s
  else if isTransientToolError errorText = false then s
  else
    let windowS := max 60 s.failureWindowS
    let threshold := max 1 s.failThreshold
    let suppressS := max 60 s.suppressSeconds
    let history := ((alistGet s.failures toolName).getD []).filter
      (fun t => decide (now - t ≤ windowS))
    let history := history ++ [now]
    let s' := { s with failures := alistSet s.failures toolName history }
    if threshold ≤ (history.length : Int) then
      { s' with suppressedUntil := alistSet s'.suppressedUntil toolName (now + suppressS) }
    else s'

/-- `Session.tool_health_suppressed_tools` at clock time `now`: the set of
tools whose suppression has not expired, plus the lazily pruned state (expired
entries are popped from both maps). -/
def tool_health_suppressed_tools (s : SessionState) (now : Int) :
    List String × SessionState :=
  if s.toolHealthEnabled = false then ([], s)
  else
    let expired := (s.suppressedUntil.filter (fun p => !decide (now < p.2))).map Prod.fst
    ((s.suppressedUntil.filter (fun p => decide (now < p.2))).map Prod.fst,
     { s with
       suppressedUntil := s.suppressedUntil.filter (fun p => !expired.contains p.1)
       failures := s.failures.filter (fun p => !expired.contains p.1) })

/-! ## Plan executor (`src/tcm/agent/executor.py`) -/

/-- A registered tool. Its `run` is a function of the (1-based) invocation
attempt within a step, modelling external state that may make a call fail on
one attempt and succeed on another; an exception is `Except.error` carrying
`str(e)`. -/
structure Tool where
  name : String
  run : Nat → Dict → Except String Value

/-- The tool registry, a dict keyed by tool name (`ToolRegistry._tools`). -/
abbrev ToolRegistry := List (String × Tool)

/-- `ToolRegistry.get_tool`. -/
def get_tool (registry : ToolRegistry) (name : String) : Option Tool :=
  alistGet registry name

/-- Observable executor effects: tool invocations (with the attempt index and
the parameters passed) and `time.sleep` calls. -/
inductive Effect where
  | invoke (tool : String) (attempt : Nat) (params : Dict)
  | sleeped (seconds : Int)

/-- Executor-side state: the session, the clock (`time.time()`), and the
trace of effects performed so far. -/
structure ExecSt where
  session : SessionState
  clock : Int
  trace : List Effect := []

/-- A plan step: the dict keys `step`, `tool`, `parameters`, `purpose` with
their `step.get` defaults (`step` defaults positionally, at the call site). -/
structure Step where
  stepNum : Option Int := none
  tool : String := ""
  parameters : Dict := []
  purpose : String := ""

/-- A plan: `reasoning` text plus a step list. -/
structure Plan where
  reasoning : String := ""
  steps : List Step := []

/-- The reference-walking loop inside `_resolve_params`: walks the dotted
path by `obj.get(part, value)`, falling back to the literal reference string
the moment a non-mapping is reached; a missed key substitutes the literal and
the next iteration (or loop exit) then yields it. -/
def walkPath (obj : Value) (parts : List String) (fallbackLiteral : String) : Value :=
  match parts with
  | [] => obj
  | part :: rest =>
    match obj with
    | Value.vDict d =>
      walkPath ((alistGet d part).getD (Value.vStr fallbackLiteral)) rest fallbackLiteral
    | _ => Value.vStr fallbackLiteral

/-- Strict path walk used only in specification statements: `some v` exactly
when every component is a successful mapping-key lookup. -/
def walkPathStrict (obj : Value) : List String → Option Value
  | [] => some obj
  | part :: rest =>
    match obj with
    | Value.vDict d =>
      match alistGet d part with
      | some v => walkPathStrict v rest
      | none => none
    | _ => none

/-- Parses `"$stepN.path"`: `parts = value[1:].split(".")`, then
`int(parts[0].replace("step", ""))`; `none` models the caught `ValueError`. -/
def parseStepRef (s : String) : Option (Int × List String) :=
  match pySplit (pyDrop1 s) '.' with
  | [] => none
  | p0 :: rest =>
    match pyInt (pyReplace p0 "step" "") with
    | some n => some (n, rest)
    | none => none

/-- Resolution of a parsed reference against the prior results:
`step_ref = N - 1`; in range, walk the path into that result dict, otherwise
keep the literal reference string. -/
def resolveRef (n : Int) (path : List String) (previousResults : List Dict)
    (literal : String) : Value :=
  let stepRef := n - 1
  if 0 ≤ stepRef ∧ stepRef < (previousResults.length : Int) then
    walkPath (Value.vDict (previousResults.getD stepRef.toNat [])) path literal
  else Value.vStr literal

/-- Per-value body of `_resolve_params`: only strings starting with `"$step"`
are treated as references; parse failures keep the literal value. -/
def resolveParamValue (value : Value) (previousResults : List Dict) : Value :=
  match value with
  | Value.vStr s =>
    if pyStartsWith s "$step" then
      match parseStepRef s with
      | some (n, path) => resolveRef n path previousResults s
      | none => Value.vStr s
    else Value.vStr s
  | v => v

/-- `_resolve_params`: resolves each parameter value against the results
accumulated so far. Total by construction — resolution never raises. -/
def resolve_params (parameters : Dict) (previousResults : List Dict) : Dict :=
  parameters.map (fun kv => (kv.1, resolveParamValue kv.2 previousResults))

/-- Python `range(1, maxRetries + 1)` (empty when `maxRetries ≤ 0`). -/
def pyRangeFrom1 (maxRetries : Int) : List Nat :=
  (List.range maxRetries.toNat).map (fun i => i + 1)

/-- The loop body of `_execute_with_retry`, iterating over the remaining
attempt indices: invoke the tool; on success record tool health and return
the success dict; on exception record the failure, and either return the
error dict (no attempts left) or sleep one second and retry with the same
parameters. Falling off the loop yields the unreachable sentinel dict. -/
def executeWithRetryGo (tool : Tool) (parameters : Dict) (maxRetries : Int) :
    List Nat → ExecSt → Dict × ExecSt
  | [], st =>
    ([("status", Value.vStr "error"), ("error", Value.vStr "Max retries exceeded")], st)
  | attempt :: restAttempts, st =>
    let st1 := { st with trace := st.trace ++ [Effect.invoke tool.name attempt parameters] }
    match tool.run attempt parameters with
    | Except.ok output =>
      ([("status", Value.vStr "success"), ("output", output)],
       { st1 with session := record_tool_success st1.session tool.name })
    | Except.error e =>
      let st2 := { st1 with session := record_tool_failure st1.session tool.name e st1.clock }
      if (attempt : Int) ≥ maxRetries then
        ([("status", Value.vStr "error"), ("error", Value.vStr e)], st2)
      else
        executeWithRetryGo tool parameters maxRetries restAttempts
          { st2 with clock := st2.clock + 1, trace := st2.trace ++ [Effect.sleeped 1] }

/-- `_execute_with_retry`: attempts `1 .. max_retries`. -/
def execute_with_retry (tool : Tool) (parameters : Dict) (maxRetries : Int)
    (st : ExecSt) : Dict × ExecSt :=
  executeWithRetryGo tool parameters maxRetries (pyRangeFrom1 maxRetries) st

/-- The step loop of `execute_plan`: per step, look the tool up (an absent
tool contributes an error result and execution continues), resolve parameters
against the results so far, execute with retry, stamp `step`, `tool` and
`purpose` onto the result dict, and append it. -/
def executePlanGo (registry : ToolRegistry) (maxRetries : Int) :
    List Step → List Dict → ExecSt → List Dict × ExecSt
  | [], results, st => (results, st)
  | step :: rest, results, st =>
    let stepNum := step.stepNum.getD ((results.length : Int) + 1)
    match get_tool registry step.tool with
    | none =>
      let result : Dict :=
        [("step", Value.vInt stepNum), ("tool", Value.vStr step.tool),
         ("status", Value.vStr "error"),
         ("error", Value.vStr ("Tool \x27" ++ step.tool ++ "\x27 not found."))]
      executePlanGo registry maxRetries rest (results ++ [result]) st
    | some tool =>
      let resolvedParams := resolve_params step.parameters results
      let (result0, st') := execute_with_retry tool resolvedParams maxRetries st
      let result :=
        alistSet (alistSet (alistSet result0 "step" (Value.vInt stepNum))
          "tool" (Value.vStr step.tool)) "purpose" (Value.vStr step.purpose)
      executePlanGo registry maxRetries rest (results ++ [result]) st'

/-- `execute_plan`: the empty-step sentinel result, or the step loop with
`max_retries` read from configuration (`agent.executor_max_retries`). -/
def execute_plan (registry : ToolRegistry) (plan : Plan) (st : ExecSt) :
    List Dict × ExecSt :=
  if plan.steps.isEmpty then
    ([[("step", Value.vInt 0), ("tool", Value.vStr "llm_direct"),
       ("result", Value.vStr plan.reasoning), ("status", Value.vStr "success")]], st)
  else
    executePlanGo registry st.session.executorMaxRetries plan.steps [] st

/-! ## LLM client retry (`src/tcm/models/llm.py`, `LLMClient._retry`) -/

/-- The transient-error test inside `LLMClient._retry`. -/
def llmIsTransient (errText : String) : Bool :=
  let errStr := pyLower errText
  ["rate_limit", "rate limit", "429", "overloaded",
   "529", "500", "502", "503", "connection", "timeout"].any
    (fun w => pyContains w errStr)

/-- The loop body of `LLMClient._retry` over the remaining attempt indices,
accumulating the backoff delays slept. `Except.ok none` models the implicit
`None` return when the attempt range is empty; a raised final error is
`Except.error`. -/
def llmRetryGo {α : Type} (fn : Nat → Except String α) (maxRetries : Int)
    (baseDelay : ℚ) : List Nat → List ℚ → Except String (Option α) × List ℚ
  | [], delays => (Except.ok none, delays)
  | attempt :: restAttempts, delays =>
    match fn attempt with
    | Except.ok v => (Except.ok (some v), delays)
    | Except.error e =>
      if llmIsTransient e ∧ (attempt : Int) < maxRetries then
        llmRetryGo fn maxRetries baseDelay restAttempts
          (delays ++ [baseDelay * 2 ^ (attempt - 1)])
      else (Except.error e, delays)

/-- `LLMClient._retry(fn, max_retries=3, base_delay=2.0)`: the result plus
the recorded backoff delays. -/
def llmRetry {α : Type} (fn : Nat → Except String α) (maxRetries : Int)
    (baseDelay : ℚ) : Except String (Option α) × List ℚ :=
  llmRetryGo fn maxRetries baseDelay (pyRangeFrom1 maxRetries) []

/-! ## Model catalog and usage tracking (`src/tcm/models/llm.py`) -/

/-- Catalog metadata for a model; prices are USD per million tokens. -/
structure ModelInfo where
  id : String
  provider : String
  display_name : String
  context_window : Nat
  input_price : ℚ
  output_price : ℚ
  description : String := ""

/-- `_register`: keys each model by its id, in registration order. -/
def registerModels (models : List ModelInfo) : List (String × ModelInfo) :=
  models.map (fun m => (m.id, m))

/-- `MODEL_CATALOG`, entry for entry from the source. -/
def MODEL_CATALOG : List (String × ModelInfo) :=
  registerModels
    [⟨"claude-sonnet-4-5-20250929", "anthropic", "Claude Sonnet 4.5", 200000, 3.00, 15.00,
      "Best balance of speed and intelligence"⟩,
     ⟨"claude-haiku-4-5-20251001", "anthropic", "Claude Haiku 4.5", 200000, 0.80, 4.00,
      "Fastest and most affordable"⟩,
     ⟨"claude-opus-4-6", "anthropic", "Claude Opus 4.6", 200000, 15.00, 75.00,
      "Most capable for complex research"⟩,
     ⟨"gpt-4o", "openai", "GPT-4o", 128000, 2.50, 10.00,
      "High-intelligence flagship model"⟩,
     ⟨"gpt-4o-mini", "openai", "GPT-4o Mini", 128000, 0.15, 0.60,
      "Fast and affordable small model"⟩,
     ⟨"o3-mini", "openai", "o3-mini", 200000, 1.10, 4.40,
      "Reasoning model, good for analysis"⟩,
     ⟨"gpt-4.1", "openai", "GPT-4.1", 1047576, 2.00, 8.00,
      "Latest flagship with 1M context"⟩,
     ⟨"gpt-4.1-mini", "openai", "GPT-4.1 Mini", 1047576, 0.40, 1.60,
      "Balanced speed and intelligence"⟩,
     ⟨"gpt-4.1-nano", "openai", "GPT-4.1 Nano", 1047576, 0.10, 0.40,
      "Fastest, most cost-effective"⟩,
     ⟨"deepseek-v3.2", "deepseek", "DeepSeek V3.2", 128000, 0.00, 0.00,
      "Latest general model"⟩,
     ⟨"deepseek-r1", "deepseek", "DeepSeek R1", 128000, 0.00, 0.00,
      "Reasoning model"⟩,
     ⟨"kimi-k2.5", "kimi", "Kimi K2.5", 200000, 0.00, 0.00,
      "Flagship Kimi model"⟩,
     ⟨"minimax-m2.5", "minimax", "MiniMax M2.5", 200000, 0.00, 0.00,
      "Flagship MiniMax model"⟩,
     ⟨"qwen3-max", "qwen", "Qwen3-Max", 1000000, 0.00, 0.00,
      "Flagship Qwen model"⟩,
     ⟨"qwen-plus", "qwen", "Qwen-Plus", 200000, 0.00, 0.00,
      "Balanced speed and cost"⟩,
     ⟨"gemini-2.5-pro", "google", "Gemini 2.5 Pro", 1048576, 1.25, 10.00,
      "Most capable Gemini, best for complex reasoning"⟩,
     ⟨"gemini-2.5-flash", "google", "Gemini 2.5 Flash", 1048576, 0.15, 0.60,
      "Fast mid-size multimodal model"⟩,
     ⟨"gemini-2.5-flash-lite", "google", "Gemini 2.5 Flash-Lite", 1048576, 0.075, 0.30,
      "Cost-efficient Gemini 2.5 model"⟩,
     ⟨"gemini-2.0-flash", "google", "Gemini 2.0 Flash", 1048576, 0.10, 0.40,
      "Fast, versatile next-gen multimodal model"⟩,
     ⟨"gemini-2.0-flash-lite", "google", "Gemini 2.0 Flash-Lite", 1048576, 0.075, 0.30,
      "Most cost-efficient Gemini 2.0 model"⟩,
     ⟨"gemini-3.1-pro-preview", "google", "Gemini 3.1 Pro Preview", 1048576, 0.00, 0.00,
      "Frontier Gemini 3.1 Pro, early access"⟩,
     ⟨"gemini-3-pro-preview", "google", "Gemini 3 Pro Preview", 1048576, 0.00, 0.00,
      "Frontier Gemini 3 Pro, early access"⟩,
     ⟨"gemini-3-flash-preview", "google", "Gemini 3 Flash Preview", 1048576, 0.00, 0.00,
      "Frontier Gemini 3 Flash, early access"⟩,
     ⟨"gemini-pro-latest", "google", "Gemini Pro Latest", 1048576, 0.00, 0.00,
      "Alias to latest stable Gemini Pro"⟩,
     ⟨"gemini-flash-latest", "google", "Gemini Flash Latest", 1048576, 0.00, 0.00,
      "Alias to latest stable Gemini Flash"⟩]

/-- `model_pricing`: the `{input, output}` price pair, or `none` for a model
absent from the catalog. -/
def model_pricing (model : String) : Option (ℚ × ℚ) :=
  (alistGet MODEL_CATALOG model).map (fun info => (info.input_price, info.output_price))

/-- One entry of `UsageTracker.calls`. -/
structure UsageCall where
  model : String
  input : Nat
  output : Nat
  cost : ℚ

/-- `UsageTracker`. -/
structure UsageTracker where
  calls : List UsageCall := []

/-- `UsageTracker._estimate_cost`: price-table lookup, `0.0` for an unlisted
model. -/
def estimate_cost (model : String) (usage : List (String × Nat)) : ℚ :=
  match model_pricing model with
  | none => 0
  | some pricing =>
    ((((alistGet usage "input").getD 0 : ℚ) / 1000000) * pricing.1) +
      ((((alistGet usage "output").getD 0 : ℚ) / 1000000) * pricing.2)

/-- `UsageTracker.record`: a no-op for an absent/empty usage dict, otherwise
appends one call record with the estimated cost. -/
def UsageTracker.record (tracker : UsageTracker) (model : String)
    (usage : List (String × Nat)) : UsageTracker :=
  if usage.isEmpty then tracker
  else
    { calls := tracker.calls ++
        [{ model := model
           input := (alistGet usage "input").getD 0
           output := (alistGet usage "output").getD 0
           cost := estimate_cost model usage }] }

/-- `UsageTracker.total_cost`. -/
def UsageTracker.total_cost (tracker : UsageTracker) : ℚ :=
  (tracker.calls.map (fun c => c.cost)).sum

/-! ## Fixtures used by witness theorems -/

/-- The spec's example prior result: step 1 succeeded with
`output = {"targets": ["A", "B"]}` (stamped as the executor would). -/
def step1ResultFixture : Dict :=
  [("status", Value.vStr "success"),
   ("output", Value.vDict [("targets", Value.vList [Value.vStr "A", Value.vStr "B"])]),
   ("step", Value.vInt 1), ("tool", Value.vStr "herbs.lookup"), ("purpose", Value.vStr "")]

/-- A tool that raises `"boom"` on every invocation. -/
def alwaysFailTool : Tool := ⟨"flaky.tool", fun _ _ => Except.error "boom"⟩

/-- A tool that always succeeds. -/
def okTool : Tool := ⟨"ok.tool", fun _ _ => Except.ok (Value.vStr "fine")⟩

/-- A registry holding the two fixture tools. -/
def fixtureRegistry : ToolRegistry :=
  [("flaky.tool", alwaysFailTool), ("ok.tool", okTool)]

/-- A 3-step plan whose step 1 always fails and whose steps 2 and 3 succeed. -/
def threeStepPlan : Plan :=
  { reasoning := "look things up"
    steps := [{ stepNum := some 1, tool := "flaky.tool" },
              { stepNum := some 2, tool := "ok.tool" },
              { stepNum := some 3, tool := "ok.tool" }] }

/-- A fresh executor state: default session configuration, clock 0. -/
def freshExecSt : ExecSt := { session := {}, clock := 0 }

/-- The tool-health scenario of the spec: two transient failures recorded for
the same tool at times `t1` and `t2`, starting from a fresh session. -/
def suppressScenario (name e1 e2 : String) (t1 t2 : Int) : SessionState :=
  record_tool_failure (record_tool_failure {} name e1 t1) name e2 t2

/-- An LLM call that fails transiently on attempts 1 and 2 and succeeds on
attempt 3. -/
def llmFnSucceed3 : Nat → Except String Nat := fun a =>
  if a < 3 then Except.error "rate limit hit" else Except.ok 42

/-- An LLM call that fails fatally (non-transient) on every attempt. -/
def llmFnFatal : Nat → Except String Nat := fun _ => Except.error "invalid api key"

/-- An LLM call that fails transiently on every attempt. -/
def llmFnAlwaysTransient : Nat → Except String Nat := fun _ =>
  Except.error "timeout talking"

/-! ## Helper lemmas -/

/-- Lookup after `alistSet`: the set key reads back the new value, other keys
are unchanged. -/
theorem alistGet_alistSet {α : Type} (l : List (String × α)) (k : String) (v : α)
    (q : String) : alistGet (alistSet l k v) q = if q = k then some v else alistGet l q := by
  induction l with
  | nil =>
    simp only [alistSet, alistGet]
    by_cases hq : q = k
    · subst hq; simp
    · rw [if_neg (fun h => hq h.symm), if_neg hq]
  | cons hd tl ih =>
    obtain ⟨k', v'⟩ := hd
    simp only [alistSet]
    by_cases hk : k' = k
    · subst hk
      simp only [if_pos rfl, alistGet]
      by_cases hq : k' = q
      · subst hq; simp
      · rw [if_neg hq, if_neg (fun h => hq h.symm), if_neg hq]
    · rw [if_neg hk]
      simp only [alistGet, ih]
      by_cases hq : k' = q <;> by_cases hq2 : q = k <;> simp_all

/-- Lookup after `alistPop`: the popped key is gone. -/
theorem alistGet_alistPop {α : Type} (l : List (String × α)) (k : String) :
    alistGet (alistPop l k) k = none := by
  induction l with
  | nil => rfl
  | cons hd tl ih =>
    obtain ⟨k', v'⟩ := hd
    by_cases hk : k' = k
    · simp [alistPop, hk] at ih ⊢; exact ih
    · simpa [alistPop, alistGet, hk] using ih

/-- Walking any path out of an object that is already the fallback literal
keeps yielding the fallback literal. -/
theorem walkPath_vStr_self (lit : String) (parts : List String) :
    walkPath (Value.vStr lit) parts lit = Value.vStr lit := by
  cases parts <;> rfl

/-- When the strict walk succeeds, the fallback walk returns the same value. -/
theorem walkPath_of_strict_some (parts : List String) :
    ∀ (obj : Value) (v : Value) (lit : String),
      walkPathStrict obj parts = some v → walkPath obj parts lit = v := by
  induction parts with
  | nil => intro obj v lit h; simpa [walkPathStrict, walkPath] using h
  | cons part rest ih =>
    intro obj v lit h
    match obj with
    | Value.vNull | Value.vBool _ | Value.vInt _ | Value.vStr _ | Value.vList _ =>
      simp [walkPathStrict] at h
    | Value.vDict d =>
      simp only [walkPathStrict] at h
      cases hg : alistGet d part with
      | none => rw [hg] at h; simp at h
      | some w =>
        rw [hg] at h
        simpa [walkPath, hg] using ih w v lit h

/-- When the strict walk fails, the fallback walk degrades to the literal. -/
theorem walkPath_of_strict_none (parts : List String) :
    ∀ (obj : Value) (lit : String),
      walkPathStrict obj parts = none → walkPath obj parts lit = Value.vStr lit := by
  induction parts with
  | nil => intro obj lit h; simp [walkPathStrict] at h
  | cons part rest ih =>
    intro obj lit h
    match obj with
    | Value.vNull | Value.vBool _ | Value.vInt b | Value.vStr s | Value.vList l =>
      simp [walkPath]
    | Value.vDict d =>
      simp only [walkPathStrict] at h
      cases hg : alistGet d part with
      | none => simp [walkPath, hg, walkPath_vStr_self]
      | some w =>
        rw [hg] at h
        simpa [walkPath, hg] using ih w lit h

/-- A first transient failure against a fresh session starts the failure
history; one failure is below the threshold of 2, so nothing is suppressed. -/
theorem record_tool_failure_fresh (name e : String) (t : Int)
    (hn : name ≠ "") (he : isTransientToolError e = true) :
    record_tool_failure {} name e t = { failures := [(name, [t])] } := by
  rw [record_tool_failure, if_neg (by simp [hn]), if_neg (by simp [he])]
  simp only [alistGet, alistSet]
  norm_num

/-- A second transient failure within the window reaches the threshold of 2
and suppresses the tool until `t2 + 900`. -/
theorem record_tool_failure_reaches_threshold (name e : String) (t1 t2 : Int)
    (hn : name ≠ "") (he : isTransientToolError e = true) (hw : t2 - t1 ≤ 1800) :
    record_tool_failure { failures := [(name, [t1])] } name e t2 =
      { failures := [(name, [t1, t2])], suppressedUntil := [(name, t2 + 900)] } := by
  have hw' : t2 ≤ 1800 + t1 := by omega
  rw [record_tool_failure, if_neg (by simp [hn]), if_neg (by simp [he])]
  simp only [alistGet, alistSet, if_pos rfl]
  norm_num [List.filter_cons, hw']

/-- A non-transient error makes `record_tool_failure` a no-op. -/
theorem record_tool_failure_nontransient_noop (s : SessionState) (toolName e : String)
    (t : Int) (he : isTransientToolError e = false) :
    record_tool_failure s toolName e t = s := by
  rw [record_tool_failure]
  by_cases hA : s.toolHealthEnabled = false ∨ toolName = ""
  · rw [if_pos hA]
  · rw [if_neg hA, if_pos he]

/-! ## Claim theorems -/

/-- C2: a parameter whose value is a string `$stepN.path` resolves, against
the step-result sequence accumulated so far, to the value reached by walking
the dotted path by mapping-key lookup into the N-th (1-based) prior result
when N is in range and every lookup succeeds; when N is out of range, or the
walk hits a non-mapping or a missing key, resolution returns the literal
reference string itself (resolution is total, so it never raises or aborts
the step). The spec's two examples are included: `$step1.output.targets`
against a first result with output targets A, B resolves to the list, and
`$step5.x` with fewer than five prior results stays literal. -/
theorem resolve_params_reference_semantics :
    (∀ (prev : List Dict) (lit : String) (n : Int) (path : List String) (v : Value),
       1 ≤ n → n ≤ (prev.length : Int) →
       walkPathStrict (Value.vDict (prev.getD (n - 1).toNat [])) path = some v →
       resolveRef n path prev lit = v) ∧
    (∀ (prev : List Dict) (lit : String) (n : Int) (path : List String),
       n < 1 ∨ (prev.length : Int) < n →
       resolveRef n path prev lit = Value.vStr lit) ∧
    (∀ (prev : List Dict) (lit : String) (n : Int) (path : List String),
       1 ≤ n → n ≤ (prev.length : Int) →
       walkPathStrict (Value.vDict (prev.getD (n - 1).toNat [])) path = none →
       resolveRef n path prev lit = Value.vStr lit) ∧
    (resolve_params [("p", Value.vStr "$step1.output.targets")] [step1ResultFixture] =
       [("p", Value.vList [Value.vStr "A", Value.vStr "B"])]) ∧
    (∀ prev : List Dict, prev.length < 5 →
       resolve_params [("p", Value.vStr "$step5.x")] prev =
         [("p", Value.vStr "$step5.x")]) := by
  refine ⟨?_, ?_, ?_, rfl, ?_⟩
  · intro prev lit n path v h1 h2 h3
    rw [resolveRef, if_pos (by omega)]
    exact walkPath_of_strict_some path _ v lit h3
  · intro prev lit n path h
    rw [resolveRef, if_neg (by omega)]
  · intro prev lit n path h1 h2 h3
    rw [resolveRef, if_pos (by omega)]
    exact walkPath_of_strict_none path _ lit h3
  · intro prev h
    simp only [resolve_params, List.map, resolveParamValue,
      show pyStartsWith "$step5.x" "$step" = true from rfl,
      show parseStepRef "$step5.x" = some (5, ["x"]) from rfl, if_pos]
    rw [resolveRef, if_neg (by push_cast; omega)]

/-- Witness for C2: the general conjuncts applied at concrete inputs — the
spec's `$step1.output.targets` example, the out-of-range `$step5.x` example,
and a missing-key reference `$step1.missing`. -/
theorem resolve_params_reference_semantics_witness :
    (resolveRef 1 ["output", "targets"] [step1ResultFixture] "$step1.output.targets" =
       Value.vList [Value.vStr "A", Value.vStr "B"]) ∧
    (resolveRef 5 ["x"] [step1ResultFixture] "$step5.x" = Value.vStr "$step5.x") ∧
    (resolveRef 1 ["missing"] [step1ResultFixture] "$step1.missing" =
       Value.vStr "$step1.missing") ∧
    (resolve_params [("p", Value.vStr "$step5.x")] [step1ResultFixture] =
       [("p", Value.vStr "$step5.x")]) :=
  ⟨resolve_params_reference_semantics.1 [step1ResultFixture] "$step1.output.targets" 1
     ["output", "targets"] _ (by decide) (by decide) rfl,
   resolve_params_reference_semantics.2.1 [step1ResultFixture] "$step5.x" 5 ["x"]
     (by decide),
   resolve_params_reference_semantics.2.2.1 [step1ResultFixture] "$step1.missing" 1
     ["missing"] (by decide) (by decide) rfl,
   resolve_params_reference_semantics.2.2.2.2 [step1ResultFixture] (by decide)⟩

/-- C4: with the default configuration (`fail_threshold = 2`,
`window_s = 1800`), two transient failures for a tool within the window put
it into `tool_health_suppressed_tools()`, and a single subsequent recorded
success removes it from the suppressed set immediately and clears its entire
failure history — a hard reset. -/
theorem two_transient_failures_suppress_success_resets
    (name e1 e2 : String) (t1 t2 : Int) (hn : name ≠ "")
    (h1 : isTransientToolError e1 = true) (h2 : isTransientToolError e2 = true)
    (hw : t2 - t1 ≤ 1800) :
    name ∈ (tool_health_suppressed_tools (suppressScenario name e1 e2 t1 t2) t2).1 ∧
    (∀ now : Int, name ∉ (tool_health_suppressed_tools
        (record_tool_success (suppressScenario name e1 e2 t1 t2) name) now).1) ∧
    (record_tool_success (suppressScenario name e1 e2 t1 t2) name).failures = [] ∧
    (record_tool_success (suppressScenario name e1 e2 t1 t2) name).suppressedUntil = [] := by
  have hs : suppressScenario name e1 e2 t1 t2 =
      { failures := [(name, [t1, t2])], suppressedUntil := [(name, t2 + 900)] } := by
    rw [suppressScenario, record_tool_failure_fresh name e1 t1 hn h1,
      record_tool_failure_reaches_threshold name e2 t1 t2 hn h2 hw]
  rw [hs]
  refine ⟨?_, ?_, ?_, ?_⟩
  · simp [tool_health_suppressed_tools, show t2 < t2 + 900 by omega]
  · intro now
    simp [record_tool_success, hn, alistPop, tool_health_suppressed_tools]
  · simp [record_tool_success, hn, alistPop]
  · simp [record_tool_success, hn, alistPop]

/-- Witness for C4: tool `"X"`, two `"timeout"` failures at times 100 and
200, checked at time 200, then reset checked at time 201. -/
theorem two_transient_failures_suppress_success_resets_witness :
    "X" ∈ (tool_health_suppressed_tools (suppressScenario "X" "timeout" "timeout" 100 200) 200).1 ∧
    "X" ∉ (tool_health_suppressed_tools
      (record_tool_success (suppressScenario "X" "timeout" "timeout" 100 200) "X") 201).1 ∧
    (record_tool_success (suppressScenario "X" "timeout" "timeout" 100 200) "X").failures = [] :=
  ⟨(two_transient_failures_suppress_success_resets "X" "timeout" "timeout" 100 200
      (by decide) rfl rfl (by decide)).1,
   (two_transient_failures_suppress_success_resets "X" "timeout" "timeout" 100 200
      (by decide) rfl rfl (by decide)).2.1 201,
   (two_transient_failures_suppress_success_resets "X" "timeout" "timeout" 100 200
      (by decide) rfl rfl (by decide)).2.2.1⟩

/-- C5: a suppression triggered by the failure at time `t2` lasts the fixed
default duration of 900 seconds measured from that triggering failure: once
the clock passes `t2 + 900`, the tool is no longer in
`tool_health_suppressed_tools()`. -/
theorem suppression_expires_after_duration
    (name e1 e2 : String) (t1 t2 now : Int) (hn : name ≠ "")
    (h1 : isTransientToolError e1 = true) (h2 : isTransientToolError e2 = true)
    (hw : t2 - t1 ≤ 1800) (hnow : t2 + 900 < now) :
    name ∉ (tool_health_suppressed_tools (suppressScenario name e1 e2 t1 t2) now).1 := by
  have hs : suppressScenario name e1 e2 t1 t2 =
      { failures := [(name, [t1, t2])], suppressedUntil := [(name, t2 + 900)] } := by
    rw [suppressScenario, record_tool_failure_fresh name e1 t1 hn h1,
      record_tool_failure_reaches_threshold name e2 t1 t2 hn h2 hw]
  rw [hs]
  simp [tool_health_suppressed_tools, show ¬(now < t2 + 900) by omega]

/-- Witness for C5: the suppression triggered at time 200 is gone at time
1101 (past 200 + 900). -/
theorem suppression_expires_after_duration_witness :
    "X" ∉ (tool_health_suppressed_tools
      (suppressScenario "X" "timeout" "timeout" 100 200) 1101).1 :=
  suppression_expires_after_duration "X" "timeout" "timeout" 100 200 1101
    (by decide) rfl rfl (by decide) (by decide)

/-- C6: failures whose error text matches none of the transient markers never
change the session state at all, however many times they are recorded — so
they never accrue failure history and never suppress the tool. -/
theorem nontransient_failures_never_suppress (s : SessionState) (toolName e : String)
    (ts : List Int) (he : isTransientToolError e = false) :
    (ts.foldl (fun st t => record_tool_failure st toolName e t) s = s) ∧
    (∀ now : Int, toolName ∉ (tool_health_suppressed_tools
        (ts.foldl (fun st t => record_tool_failure st toolName e t) {}) now).1) := by
  have hfold : ∀ (ts' : List Int) (st : SessionState),
      ts'.foldl (fun st t => record_tool_failure st toolName e t) st = st := by
    intro ts'
    induction ts' with
    | nil => intro st; rfl
    | cons t rest ih =>
      intro st
      rw [List.foldl_cons, record_tool_failure_nontransient_noop st toolName e t he]
      exact ih st
  refine ⟨hfold ts s, ?_⟩
  intro now
  rw [hfold ts {}]
  simp [tool_health_suppressed_tools]

/-- Witness for C6: tool `"X"` failing three times with
`"invalid parameter"` leaves a fresh session unchanged and unsuppressed. -/
theorem nontransient_failures_never_suppress_witness :
    ([10, 20, 30].foldl (fun st t => record_tool_failure st "X" "invalid parameter" t)
       ({} : SessionState) = {}) ∧
    "X" ∉ (tool_health_suppressed_tools
      ([10, 20, 30].foldl (fun st t => record_tool_failure st "X" "invalid parameter" t)
        ({} : SessionState)) 30).1 :=
  ⟨(nontransient_failures_never_suppress {} "X" "invalid parameter" [10, 20, 30] rfl).1,
   (nontransient_failures_never_suppress {} "X" "invalid parameter" [10, 20, 30] rfl).2 30⟩

/-- C10: `record_tool_success` clears the tool's failure history and any
active suppression unconditionally, for every session state — including ones
with tool health disabled (whereas `record_tool_failure` is a no-op when
disabled); its only guard is an empty tool name, for which it does nothing. -/
theorem record_tool_success_unconditional (s : SessionState) (toolName : String) :
    (toolName ≠ "" →
      alistGet (record_tool_success s toolName).failures toolName = none ∧
      alistGet (record_tool_success s toolName).suppressedUntil toolName = none) ∧
    (record_tool_success s "" = s) ∧
    (∀ (e : String) (t : Int), s.toolHealthEnabled = false →
      record_tool_failure s toolName e t = s) := by
  refine ⟨?_, ?_, ?_⟩
  · intro hn
    rw [record_tool_success, if_neg hn]
    exact ⟨alistGet_alistPop _ _, alistGet_alistPop _ _⟩
  · rw [record_tool_success, if_pos rfl]
  · intro e t hd
    rw [record_tool_failure, if_pos (Or.inl hd)]

/-- Witness for C10: a session with tool health disabled but with recorded
failure pressure and an active suppression for `"X"`; success still clears
both, while a failure recording is a no-op. -/
theorem record_tool_success_unconditional_witness :
    (alistGet (record_tool_success
        { toolHealthEnabled := false, failures := [("X", [5])],
          suppressedUntil := [("X", 999)] } "X").failures "X" = none ∧
      alistGet (record_tool_success
        { toolHealthEnabled := false, failures := [("X", [5])],
          suppressedUntil := [("X", 999)] } "X").suppressedUntil "X" = none) ∧
    (record_tool_success
        { toolHealthEnabled := false, failures := [("X", [5])],
          suppressedUntil := [("X", 999)] } "" =
      { toolHealthEnabled := false, failures := [("X", [5])],
        suppressedUntil := [("X", 999)] }) ∧
    (record_tool_failure
        { toolHealthEnabled := false, failures := [("X", [5])],
          suppressedUntil := [("X", 999)] } "X" "timeout" 7 =
      { toolHealthEnabled := false, failures := [("X", [5])],
        suppressedUntil := [("X", 999)] }) :=
  ⟨(record_tool_success_unconditional
      { toolHealthEnabled := false, failures := [("X", [5])],
        suppressedUntil := [("X", 999)] } "X").1 (by decide),
   (record_tool_success_unconditional
      { toolHealthEnabled := false, failures := [("X", [5])],
        suppressedUntil := [("X", 999)] } "X").2.1,
   (record_tool_success_unconditional
      { toolHealthEnabled := false, failures := [("X", [5])],
        suppressedUntil := [("X", 999)] } "X").2.2 "timeout" 7 rfl⟩

/-- Per-step shape of the executor loop: the loop appends exactly one result
per remaining step, in order; each result carries its step's tool name, and a
step whose tool is absent from the registry gets an error-status result. -/
theorem executePlanGo_spec (registry : ToolRegistry) (mr : Int) :
    ∀ (steps : List Step) (results : List Dict) (st : ExecSt),
      ∃ rs : List Dict,
        (executePlanGo registry mr steps results st).1 = results ++ rs ∧
        rs.length = steps.length ∧
        ∀ i, i < steps.length →
          alistGet (rs.getD i []) "tool" =
            some (Value.vStr ((steps.getD i {}).tool)) ∧
          (get_tool registry (steps.getD i {}).tool = none →
            alistGet (rs.getD i []) "status" = some (Value.vStr "error")) := by
  intro steps
  induction steps with
  | nil =>
    intro results st
    exact ⟨[], by simp [executePlanGo], rfl, fun i hi => absurd hi (by simp)⟩
  | cons step rest ih =>
    intro results st
    cases hg : get_tool registry step.tool with
    | none =>
      obtain ⟨rs, hout, hlen, hprops⟩ := ih
        (results ++ [[("step", Value.vInt (step.stepNum.getD ((results.length : Int) + 1))),
          ("tool", Value.vStr step.tool), ("status", Value.vStr "error"),
          ("error", Value.vStr ("Tool \x27" ++ step.tool ++ "\x27 not found."))]]) st
      refine ⟨[("step", Value.vInt (step.stepNum.getD ((results.length : Int) + 1))),
          ("tool", Value.vStr step.tool), ("status", Value.vStr "error"),
          ("error", Value.vStr ("Tool \x27" ++ step.tool ++ "\x27 not found."))] :: rs,
        ?_, ?_, ?_⟩
      · simp only [executePlanGo, hg]
        rw [hout]
        simp
      · simpa using hlen
      · intro i hi
        match i with
        | 0 =>
          refine ⟨?_, fun _ => ?_⟩ <;> simp +decide [alistGet]
        | i + 1 =>
          simpa using hprops i (by simpa using hi)
    | some tool =>
      rcases hE : execute_with_retry tool (resolve_params step.parameters results) mr st
        with ⟨r0, st'⟩
      obtain ⟨rs, hout, hlen, hprops⟩ := ih
        (results ++ [alistSet (alistSet (alistSet r0 "step"
            (Value.vInt (step.stepNum.getD ((results.length : Int) + 1))))
          "tool" (Value.vStr step.tool)) "purpose" (Value.vStr step.purpose)]) st'
      refine ⟨alistSet (alistSet (alistSet r0 "step"
            (Value.vInt (step.stepNum.getD ((results.length : Int) + 1))))
          "tool" (Value.vStr step.tool)) "purpose" (Value.vStr step.purpose) :: rs,
        ?_, ?_, ?_⟩
      · simp only [executePlanGo, hg, hE]
        rw [hout]
        simp
      · simpa using hlen
      · intro i hi
        match i with
        | 0 =>
          refine ⟨?_, fun habs => ?_⟩
          · simp only [List.getD_cons_zero]
            rw [alistGet_alistSet, if_neg (by decide), alistGet_alistSet, if_pos rfl]
          · exact absurd (hg ▸ habs) (by simp)
        | i + 1 =>
          simpa using hprops i (by simpa using hi)

/-- C1: for every plan with a non-empty step list, `execute_plan` returns
exactly one StepResult per input Step, in the same order as the input steps
(the i-th result carries the i-th step's tool name); no step is skipped
because an earlier step failed, including the tool-not-found case, which
contributes an error StepResult while execution continues. -/
theorem execute_plan_one_result_per_step_in_order
    (registry : ToolRegistry) (plan : Plan) (st : ExecSt) (hne : plan.steps ≠ []) :
    ((execute_plan registry plan st).1).length = plan.steps.length ∧
    ∀ i, i < plan.steps.length →
      alistGet (((execute_plan registry plan st).1).getD i []) "tool" =
        some (Value.vStr ((plan.steps.getD i {}).tool)) ∧
      (get_tool registry (plan.steps.getD i {}).tool = none →
        alistGet (((execute_plan registry plan st).1).getD i []) "status" =
          some (Value.vStr "error")) := by
  obtain ⟨rs, hout, hlen, hprops⟩ :=
    executePlanGo_spec registry st.session.executorMaxRetries plan.steps [] st
  have hfalse : plan.steps.isEmpty = false := by
    cases hsteps : plan.steps with
    | nil => exact absurd hsteps hne
    | cons a l => rfl
  have hplan : (execute_plan registry plan st).1 = rs := by
    rw [execute_plan, if_neg (by simp [hfalse])]
    simpa using hout
  refine ⟨by rw [hplan]; exact hlen, ?_⟩
  intro i hi
  rw [hplan]
  exact hprops i hi

/-- Witness for C1: the fixture registry and 3-step plan whose step 1 always
raises; the theorem gives one result per step in order, and direct evaluation
confirms step 1 ended in error while steps 2 and 3 still ran and succeeded. -/
theorem execute_plan_one_result_per_step_in_order_witness :
    ((execute_plan fixtureRegistry threeStepPlan freshExecSt).1).length = 3 ∧
    alistGet (((execute_plan fixtureRegistry threeStepPlan freshExecSt).1).getD 1 []) "tool" =
      some (Value.vStr ((threeStepPlan.steps.getD 1 {}).tool)) ∧
    alistGet (((execute_plan fixtureRegistry threeStepPlan freshExecSt).1).getD 0 []) "status" =
      some (Value.vStr "error") ∧
    alistGet (((execute_plan fixtureRegistry threeStepPlan freshExecSt).1).getD 1 []) "status" =
      some (Value.vStr "success") ∧
    alistGet (((execute_plan fixtureRegistry threeStepPlan freshExecSt).1).getD 2 []) "status" =
      some (Value.vStr "success") :=
  ⟨(execute_plan_one_result_per_step_in_order fixtureRegistry threeStepPlan freshExecSt
      (by simp [threeStepPlan])).1,
   ((execute_plan_one_result_per_step_in_order fixtureRegistry threeStepPlan freshExecSt
      (by simp [threeStepPlan])).2 1 (by simp [threeStepPlan])).1,
   rfl, rfl, rfl⟩

/-- C3: a tool whose run raises on every call, executed with
`max_retries = 2`, is invoked exactly twice with the very same resolved
parameters (no re-resolution), with a fixed 1-second sleep between the two
attempts, and the step yields an error result whose `error` field is the
string form of the final (second) exception. -/
theorem execute_with_retry_exhaustion (tool : Tool) (params : Dict) (st : ExecSt)
    (f : Nat → String) (h : ∀ a p, tool.run a p = Except.error (f a)) :
    execute_with_retry tool params 2 st =
      ([("status", Value.vStr "error"), ("error", Value.vStr (f 2))],
       { session := record_tool_failure
           (record_tool_failure st.session tool.name (f 1) st.clock)
           tool.name (f 2) (st.clock + 1)
         clock := st.clock + 1
         trace := st.trace ++ [Effect.invoke tool.name 1 params, Effect.sleeped 1,
           Effect.invoke tool.name 2 params] }) := by
  rw [execute_with_retry, show pyRangeFrom1 2 = [1, 2] from rfl]
  simp only [executeWithRetryGo, h]
  norm_num

/-- Witness for C3: the always-raising fixture tool on concrete parameters. -/
theorem execute_with_retry_exhaustion_witness :
    execute_with_retry alwaysFailTool [("q", Value.vStr "x")] 2 freshExecSt =
      ([("status", Value.vStr "error"), ("error", Value.vStr "boom")],
       { session := record_tool_failure
           (record_tool_failure freshExecSt.session "flaky.tool" "boom" freshExecSt.clock)
           "flaky.tool" "boom" (freshExecSt.clock + 1)
         clock := freshExecSt.clock + 1
         trace := freshExecSt.trace ++
           [Effect.invoke "flaky.tool" 1 [("q", Value.vStr "x")], Effect.sleeped 1,
            Effect.invoke "flaky.tool" 2 [("q", Value.vStr "x")]] }) :=
  execute_with_retry_exhaustion alwaysFailTool [("q", Value.vStr "x")] freshExecSt
    (fun _ => "boom") (fun _ _ => rfl)

/-- C8: for a plan with an empty step list, `execute_plan` does not iterate
and returns exactly one synthetic StepResult
`{step: 0, tool: "llm_direct", result: <reasoning>, status: "success"}`
carrying the plan's reasoning text verbatim. -/
theorem execute_plan_empty_steps_sentinel (registry : ToolRegistry) (plan : Plan)
    (st : ExecSt) (h : plan.steps = []) :
    execute_plan registry plan st =
      ([[("step", Value.vInt 0), ("tool", Value.vStr "llm_direct"),
         ("result", Value.vStr plan.reasoning), ("status", Value.vStr "success")]], st) := by
  rw [execute_plan, if_pos (by simp [h])]

/-- Witness for C8: a concrete zero-step plan with reasoning text. -/
theorem execute_plan_empty_steps_sentinel_witness :
    execute_plan fixtureRegistry { reasoning := "direct answer" } freshExecSt =
      ([[("step", Value.vInt 0), ("tool", Value.vStr "llm_direct"),
         ("result", Value.vStr "direct answer"), ("status", Value.vStr "success")]],
       freshExecSt) :=
  execute_plan_empty_steps_sentinel fixtureRegistry { reasoning := "direct answer" }
    freshExecSt rfl

/-- C7: the LLM client's retry loop with its defaults (`max_retries = 3`,
`base_delay = 2.0`) makes at most 3 attempts with backoff delays
`base * 2 ^ (attempt - 1)` — 2 s then 4 s before attempts 2 and 3; it retries
only transiently-classified errors, propagates a non-matching error
immediately on the first attempt, and after exhausting all attempts
re-raises the last error instead of returning an empty response. -/
theorem llm_retry_policy {α : Type} (fn : Nat → Except String α) (v : α)
    (e1 e2 e3 : String) :
    (llmIsTransient e1 = true → llmIsTransient e2 = true →
      fn 1 = Except.error e1 → fn 2 = Except.error e2 → fn 3 = Except.ok v →
      llmRetry fn 3 2 = (Except.ok (some v), [2, 4])) ∧
    (llmIsTransient e1 = false → fn 1 = Except.error e1 →
      llmRetry fn 3 2 = (Except.error e1, [])) ∧
    (llmIsTransient e1 = true → llmIsTransient e2 = true →
      fn 1 = Except.error e1 → fn 2 = Except.error e2 → fn 3 = Except.error e3 →
      llmRetry fn 3 2 = (Except.error e3, [2, 4])) := by
  refine ⟨?_, ?_, ?_⟩
  · intro h1 h2 hf1 hf2 hf3
    rw [llmRetry, show pyRangeFrom1 3 = [1, 2, 3] from rfl]
    simp only [llmRetryGo, hf1, hf2, hf3, h1, h2]
    norm_num
  · intro h1 hf1
    rw [llmRetry, show pyRangeFrom1 3 = [1, 2, 3] from rfl]
    simp only [llmRetryGo, hf1, h1]
    norm_num
  · intro h1 h2 hf1 hf2 hf3
    rw [llmRetry, show pyRangeFrom1 3 = [1, 2, 3] from rfl]
    simp only [llmRetryGo, hf1, hf2, hf3, h1, h2]
    norm_num

/-- Witness for C7: transient failures on attempts 1 and 2 then success gives
the value with delays 2 s and 4 s; a non-transient first error propagates
with no delays; an always-transient failure exhausts all 3 attempts and
re-raises the last error with delays 2 s and 4 s. -/
theorem llm_retry_policy_witness :
    llmRetry llmFnSucceed3 3 2 = (Except.ok (some 42), [2, 4]) ∧
    llmRetry llmFnFatal 3 2 = (Except.error "invalid api key", []) ∧
    llmRetry llmFnAlwaysTransient 3 2 = (Except.error "timeout talking", [2, 4]) :=
  ⟨(llm_retry_policy llmFnSucceed3 42 "rate limit hit" "rate limit hit" "x").1
     rfl rfl rfl rfl rfl,
   (llm_retry_policy llmFnFatal 0 "invalid api key" "x" "x").2.1 rfl rfl,
   (llm_retry_policy llmFnAlwaysTransient 0 "timeout talking" "timeout talking"
     "timeout talking").2.2 rfl rfl rfl rfl rfl⟩

/-- C9: `UsageTracker.record` prices calls from the static per-model table:
recording one million input tokens for `gpt-4o` (catalog `input_price` 2.50)
yields `total_cost = 2.50`; a model absent from the catalog is costed 0.0,
not an error; and recording with an absent/empty usage dict is a no-op that
appends nothing. -/
theorem usage_tracker_cost_from_price_table :
    ((UsageTracker.record {} "gpt-4o" [("input", 1000000), ("output", 0)]).total_cost
       = 2.5) ∧
    (model_pricing "gpt-4o" = some (2.5, 10)) ∧
    (∀ (model : String) (usage : List (String × Nat)),
      model_pricing model = none → estimate_cost model usage = 0) ∧
    (∀ (tracker : UsageTracker) (model : String) (usage : List (String × Nat)),
      model_pricing model = none →
      (tracker.record model usage).total_cost = tracker.total_cost) ∧
    (∀ (tracker : UsageTracker) (model : String), tracker.record model [] = tracker) := by
  refine ⟨?_, ?_, ?_, ?_, ?_⟩
  · have h : estimate_cost "gpt-4o" [("input", 1000000), ("output", 0)] =
        ((1000000 : ℚ) / 1000000) * 2.50 + ((0 : ℚ) / 1000000) * 10.00 := rfl
    norm_num [UsageTracker.record, UsageTracker.total_cost, h]
  · have h : model_pricing "gpt-4o" = some (2.50, 10.00) := rfl
    rw [h]
    norm_num
  · intro model usage hm
    simp only [estimate_cost, hm]
  · intro tracker model usage hm
    by_cases hu : usage.isEmpty
    · rw [UsageTracker.record, if_pos hu]
    · have hc : estimate_cost model usage = 0 := by simp only [estimate_cost, hm]
      rw [UsageTracker.record, if_neg hu]
      simp [UsageTracker.total_cost, hc]
  · intro tracker model
    simp [UsageTracker.record]

/-- Witness for C9: an unlisted model name is costed zero and leaves the
running total unchanged, and an empty usage dict appends nothing. -/
theorem usage_tracker_cost_from_price_table_witness :
    model_pricing "no-such-model" = none ∧
    estimate_cost "no-such-model" [("input", 5), ("output", 7)] = 0 ∧
    (UsageTracker.record {} "no-such-model" [("input", 5), ("output", 7)]).total_cost =
      ({} : UsageTracker).total_cost ∧
    UsageTracker.record {} "gpt-4o" [] = {} :=
  ⟨rfl,
   usage_tracker_cost_from_price_table.2.2.1 "no-such-model" [("input", 5), ("output", 7)] rfl,
   usage_tracker_cost_from_price_table.2.2.2.1 {} "no-such-model"
     [("input", 5), ("output", 7)] rfl,
   usage_tracker_cost_from_price_table.2.2.2.2 {} "gpt-4o"⟩
